import Mathlib

/-
Shallow embedding of the smart-parking data platform core.

The embedding follows the Python sources:
  - src/database/models.py        (SQLAlchemy table rows become structures)
  - src/database/repository.py    (ParkingRepository operations become
                                   functions on an explicit Database state)
  - src/ingestion/update_data.py  (save_to_database and process_data)
  - src/processing/process_parking_data.py (the per-row occupancy computation)
  - src/ml/train_model.py         (load_training_data, generate_synthetic_data)

Modelling conventions: Python ints are ℤ (ids and wall-clock ticks are ℕ),
Python floats are ℚ, nullable columns are Option, a datetime is a structure
carrying its derived hour and weekday plus an identifying tick, and the
database session is an explicit Database value threaded through the
operations.  Randomness (numpy draws) is made explicit: each synthetic
sample receives its drawn hour, weekday and gaussian noise as arguments.
-/

namespace SmartParking

/-- Datetime value, carrying exactly the components the code reads:
`.hour` (0..23), `.weekday()` (0=Monday..6=Sunday) and an identifying
tick for equality comparisons. -/
structure DateTime where
  hour : ℕ
  weekday : ℕ
  tick : ℕ
deriving DecidableEq

/-- Decoded source-API record, with the keys that
`update_data.save_to_database` and `process_data` read
(`name`, `published`, `total`, `free`, `status`, `address`, `lot_type`,
`id`, `link`, `geo_point_2d`). -/
structure SourceRecord where
  name : String
  published : DateTime
  total : Option ℤ
  free : Option ℤ
  status : Option String
  address : Option String
  lot_type : Option String
  id : Option String
  link : Option String
  geo_point_2d : Option (ℚ × ℚ)
deriving DecidableEq

/-- Row of the parking_locations table (models.ParkingLocation). -/
structure ParkingLocation where
  id : ℕ
  city : String
  parking_name : String
  address : Option String
  lot_type : Option String
  capacity : Option ℤ
  latitude : Option ℚ
  longitude : Option ℚ
  url : Option String
  external_id : Option String
  created_at : ℕ
  updated_at : ℕ
  is_active : Bool
deriving DecidableEq

/-- Row of the raw_parking_data table (models.RawParkingData). -/
structure RawParkingData where
  location_id : ℕ
  city : String
  source_timestamp : DateTime
  captured_at : ℕ
  raw_json : SourceRecord
  free_spaces : Option ℤ
  total_spaces : Option ℤ
  status : Option String
deriving DecidableEq

/-- Row of the processed_parking_data table (models.ProcessedParkingData). -/
structure ProcessedParkingData where
  location_id : ℕ
  city : String
  parking_name : String
  timestamp : DateTime
  hour : ℕ
  day_of_week : ℕ
  is_weekend : Bool
  capacity : Option ℤ
  free_spaces : Option ℤ
  occupied : Option ℤ
  occupancy_pct : Option ℚ
  status : Option String
  is_open : Option Bool
  captured_at : ℕ
deriving DecidableEq

/-- Row of the predictions table (models.Prediction). -/
structure Prediction where
  id : ℕ
  location_id : ℕ
  city : String
  parking_name : String
  predicted_at : ℕ
  target_datetime : DateTime
  predicted_occupied : ℤ
  predicted_occupancy_pct : Option ℚ
  capacity : Option ℤ
  model_version : Option String
  model_mae : Option ℚ
  actual_occupied : Option ℤ
  actual_occupancy_pct : Option ℚ
  prediction_error : Option ℚ
deriving DecidableEq

/-- Row of the model_metadata table (models.ModelMetadata). -/
structure ModelMetadata where
  version : String
  trained_at : ℕ
  n_samples : ℕ
  features : List String
  is_synthetic : Bool
  mae : ℚ
  rmse : Option ℚ
  r2_score : Option ℚ
  model_path : String
  is_active : Bool
deriving DecidableEq

/-- Database state: the five relations plus autoincrement counters. -/
structure Database where
  locations : List ParkingLocation
  raw_parking_data : List RawParkingData
  processed_parking_data : List ProcessedParkingData
  predictions : List Prediction
  model_metadata : List ModelMetadata
  next_location_id : ℕ
  next_prediction_id : ℕ
deriving DecidableEq

/-- Empty database. -/
def emptyDatabase : Database :=
  { locations := []
    raw_parking_data := []
    processed_parking_data := []
    predictions := []
    model_metadata := []
    next_location_id := 0
    next_prediction_id := 0 }

namespace ParkingRepository

/-- Keyword arguments accepted by upsert_location, as passed by its callers
(save_to_database and migrate_csv_data). -/
structure LocationKwargs where
  address : Option String := none
  lot_type : Option String := none
  capacity : Option ℤ := none
  latitude : Option ℚ := none
  longitude : Option ℚ := none
  url : Option String := none
  external_id : Option String := none
deriving DecidableEq

/-- Python `if value is not None: setattr(location, key, value)`:
a non-null incoming value overwrites, a null one is ignored. -/
def mergeField {α : Type} (incoming old : Option α) : Option α :=
  match incoming with
  | some v => some v
  | none => old

/-- Filter predicate of the upsert_location / get_location query
(ParkingLocation.city == city and ParkingLocation.parking_name == name). -/
def locKey (l : ParkingLocation) (city parking_name : String) : Bool :=
  l.city == city && l.parking_name == parking_name

/-- Update branch of upsert_location: each non-null kwarg overwrites the
stored attribute and updated_at is refreshed. -/
def applyKwargs (l : ParkingLocation) (k : LocationKwargs) (now : ℕ) :
    ParkingLocation :=
  { l with
    address := mergeField k.address l.address
    lot_type := mergeField k.lot_type l.lot_type
    capacity := mergeField k.capacity l.capacity
    latitude := mergeField k.latitude l.latitude
    longitude := mergeField k.longitude l.longitude
    url := mergeField k.url l.url
    external_id := mergeField k.external_id l.external_id
    updated_at := now }

/-- Insert branch of upsert_location: ParkingLocation(city, parking_name,
**kwargs) with column defaults created_at = updated_at = now and
is_active = True. -/
def newLocation (nid : ℕ) (city parking_name : String)
    (k : LocationKwargs) (now : ℕ) : ParkingLocation :=
  { id := nid
    city := city
    parking_name := parking_name
    address := k.address
    lot_type := k.lot_type
    capacity := k.capacity
    latitude := k.latitude
    longitude := k.longitude
    url := k.url
    external_id := k.external_id
    created_at := now
    updated_at := now
    is_active := true }

/-- ParkingRepository.upsert_location on the locations relation: the first
row matching (city, parking_name) is updated in place, otherwise a fresh row
is appended.  Returns the new relation, the id of the touched row, and the
next autoincrement id. -/
def upsert_location : List ParkingLocation → String → String →
    LocationKwargs → ℕ → ℕ → List ParkingLocation × ℕ × ℕ
  | [], city, name, k, now, nextId =>
      ([newLocation nextId city name k now], nextId, nextId + 1)
  | l :: rest, city, name, k, now, nextId =>
      if locKey l city name then
        (applyKwargs l k now :: rest, l.id, nextId)
      else
        let r := upsert_location rest city name k now nextId
        (l :: r.1, r.2.1, r.2.2)

/-- ParkingRepository.get_location: first row matching (city, parking_name). -/
def get_location (locs : List ParkingLocation) (city parking_name : String) :
    Option ParkingLocation :=
  locs.find? (fun l => locKey l city parking_name)

/-- ParkingRepository.get_all_locations: rows with is_active == True,
optionally restricted to one city. -/
def get_all_locations (locs : List ParkingLocation) (city : Option String) :
    List ParkingLocation :=
  (locs.filter (fun l => l.is_active)).filter
    (fun l => match city with
      | some c => l.city == c
      | none => true)

/-- ParkingRepository.insert_raw_data: append one RawParkingData row. -/
def insert_raw_data (rows : List RawParkingData) (location_id : ℕ)
    (city : String) (source_timestamp : DateTime) (raw_json : SourceRecord)
    (free_spaces total_spaces : Option ℤ) (status : Option String)
    (now : ℕ) : List RawParkingData :=
  rows ++ [{ location_id := location_id
             city := city
             source_timestamp := source_timestamp
             captured_at := now
             raw_json := raw_json
             free_spaces := free_spaces
             total_spaces := total_spaces
             status := status }]

/-- ParkingRepository.insert_processed_data: derives hour, day_of_week,
is_weekend and is_open from the arguments and appends one row.
Python `is_open = status == 'offen' if status else None` treats both a null
and an empty status as falsy. -/
def insert_processed_data (rows : List ProcessedParkingData)
    (location_id : ℕ) (city parking_name : String) (timestamp : DateTime)
    (capacity free_spaces occupied : Option ℤ) (occupancy_pct : Option ℚ)
    (status : Option String) (now : ℕ) : List ProcessedParkingData :=
  rows ++ [{ location_id := location_id
             city := city
             parking_name := parking_name
             timestamp := timestamp
             hour := timestamp.hour
             day_of_week := timestamp.weekday
             is_weekend := decide (5 ≤ timestamp.weekday)
             capacity := capacity
             free_spaces := free_spaces
             occupied := occupied
             occupancy_pct := occupancy_pct
             status := status
             is_open := match status with
               | none => none
               | some s => if s.isEmpty then none else some (s == "offen")
             captured_at := now }]

/-- Row shape returned by get_training_data: the five selected columns. -/
structure TrainRow where
  hour : ℕ
  day_of_week : ℕ
  capacity : Option ℤ
  occupied : Option ℤ
  parking_name : String
deriving DecidableEq

/-- Filter of the get_training_data query: city matches, occupied is not
null, capacity is not null and capacity > 0. -/
def trainFilter (p : ProcessedParkingData) (city : String) : Bool :=
  p.city == city && p.occupied.isSome &&
    (match p.capacity with
     | some c => decide (0 < c)
     | none => false)

/-- ParkingRepository.get_training_data: valid rows of one city projected to
(hour, day_of_week, capacity, occupied, parking_name). -/
def get_training_data (rows : List ProcessedParkingData) (city : String) :
    List TrainRow :=
  (rows.filter (fun p => trainFilter p city)).map
    (fun p => { hour := p.hour
                day_of_week := p.day_of_week
                capacity := p.capacity
                occupied := p.occupied
                parking_name := p.parking_name })

/-- ParkingRepository.insert_prediction: the predicted occupancy percentage
is predicted_occupied / capacity * 100 when capacity is non-null and
positive (the Python guard `capacity and capacity > 0`), else left null. -/
def insert_prediction (db : Database) (location_id : ℕ)
    (city parking_name : String) (target_datetime : DateTime)
    (predicted_occupied : ℤ) (capacity : Option ℤ)
    (model_version : Option String) (model_mae : Option ℚ) (now : ℕ) :
    Database :=
  let pct : Option ℚ :=
    match capacity with
    | some c => if 0 < c then some ((predicted_occupied : ℚ) / (c : ℚ) * 100)
                else none
    | none => none
  { db with
    predictions := db.predictions ++
      [{ id := db.next_prediction_id
         location_id := location_id
         city := city
         parking_name := parking_name
         predicted_at := now
         target_datetime := target_datetime
         predicted_occupied := predicted_occupied
         predicted_occupancy_pct := pct
         capacity := capacity
         model_version := model_version
         model_mae := model_mae
         actual_occupied := none
         actual_occupancy_pct := none
         prediction_error := none }]
    next_prediction_id := db.next_prediction_id + 1 }

/-- Primary-key lookup session.query(Prediction).get(prediction_id). -/
def find_prediction (db : Database) (pid : ℕ) : Option Prediction :=
  db.predictions.find? (fun p => p.id == pid)

/-- Field updates performed by update_prediction_actual on the found row:
actual_occupied is set, actual_occupancy_pct is set only under the guard
`prediction.capacity and prediction.capacity > 0` (otherwise left as it
was), and prediction_error = abs(predicted_occupied - actual_occupied). -/
def reconcileRow (p : Prediction) (actual_occupied : ℤ) : Prediction :=
  { p with
    actual_occupied := some actual_occupied
    actual_occupancy_pct :=
      match p.capacity with
      | some c => if 0 < c then some ((actual_occupied : ℚ) / (c : ℚ) * 100)
                  else p.actual_occupancy_pct
      | none => p.actual_occupancy_pct
    prediction_error := some ((|p.predicted_occupied - actual_occupied| : ℤ) : ℚ) }

/-- Helper: update the first prediction row with the given id. -/
def updateFirstPrediction : List Prediction → ℕ → ℤ → List Prediction
  | [], _, _ => []
  | p :: rest, pid, a =>
      if p.id == pid then reconcileRow p a :: rest
      else p :: updateFirstPrediction rest pid a

/-- ParkingRepository.update_prediction_actual: look the prediction up by
primary key and, if present, fill its actual fields; an unknown id leaves
the state unchanged. -/
def update_prediction_actual (db : Database) (prediction_id : ℕ)
    (actual_occupied : ℤ) : Database :=
  { db with predictions :=
      updateFirstPrediction db.predictions prediction_id actual_occupied }

/-- ParkingRepository.save_model_metadata: set is_active = False on every
currently active row, then append the new row with is_active = True; both
steps happen inside the same session transaction. -/
def save_model_metadata (db : Database) (version : String) (n_samples : ℕ)
    (features : List String) (mae : ℚ) (is_synthetic : Bool)
    (model_path : String) (rmse r2_score : Option ℚ) (now : ℕ) : Database :=
  { db with model_metadata :=
      (db.model_metadata.map
        (fun m => if m.is_active then { m with is_active := false } else m)) ++
      [{ version := version
         trained_at := now
         n_samples := n_samples
         features := features
         is_synthetic := is_synthetic
         mae := mae
         rmse := rmse
         r2_score := r2_score
         model_path := model_path
         is_active := true }] }

/-- ParkingRepository.get_active_model: first row with is_active == True. -/
def get_active_model (db : Database) : Option ModelMetadata :=
  db.model_metadata.find? (fun m => m.is_active)

end ParkingRepository

namespace update_data

open ParkingRepository

/-- Module-level constant CITY of update_data.py. -/
def CITY : String := "Basel"

/-- Keyword arguments that save_to_database passes to upsert_location,
read from the source record. -/
def recordKwargs (r : SourceRecord) : LocationKwargs :=
  { address := r.address
    lot_type := r.lot_type
    capacity := r.total
    latitude := r.geo_point_2d.map (fun q => q.1)
    longitude := r.geo_point_2d.map (fun q => q.2)
    url := r.link
    external_id := r.id }

/-- Body of the per-record loop of update_data.save_to_database: upsert the
location, insert a raw row, derive occupied and occupancy_pct, insert a
processed row.  The raw and processed inserts are plain appends: the code
performs no duplicate check against existing rows, and the schema declares
no uniqueness constraint on (location_id, source_timestamp). -/
def ingestRecord (db : Database) (r : SourceRecord) (now : ℕ) : Database :=
  let u := upsert_location db.locations CITY r.name (recordKwargs r) now
    db.next_location_id
  let occupied : Option ℤ :=
    match r.total, r.free with
    | some t, some f => some (t - f)
    | _, _ => none
  let occupancy_pct : Option ℚ :=
    match r.total, occupied with
    | some t, some o => if 0 < t then some ((o : ℚ) / (t : ℚ) * 100) else none
    | _, _ => none
  { db with
    locations := u.1
    next_location_id := u.2.2
    raw_parking_data := insert_raw_data db.raw_parking_data u.2.1 CITY
      r.published r r.free r.total r.status now
    processed_parking_data := insert_processed_data db.processed_parking_data
      u.2.1 CITY r.name r.published r.total r.free occupied occupancy_pct
      r.status now }

/-- update_data.save_to_database: one batch of decoded source records is
ingested record by record inside one session transaction. -/
def save_to_database (db : Database) (records : List SourceRecord)
    (now : ℕ) : Database :=
  records.foldl (fun d r => ingestRecord d r now) db

end update_data

/-- Core operations that touch the database, for reasoning about arbitrary
operation sequences: ingestion batch, training run (save_model_metadata),
prediction insert, and reconciliation. -/
inductive Op where
  | ingest (records : List SourceRecord) (now : ℕ)
  | train (version : String) (n_samples : ℕ) (features : List String)
      (mae : ℚ) (is_synthetic : Bool) (model_path : String)
      (rmse r2_score : Option ℚ) (now : ℕ)
  | predict (location_id : ℕ) (city parking_name : String)
      (target_datetime : DateTime) (predicted_occupied : ℤ)
      (capacity : Option ℤ) (model_version : Option String)
      (model_mae : Option ℚ) (now : ℕ)
  | reconcile (prediction_id : ℕ) (actual_occupied : ℤ)

/-- Apply one core operation to the database state. -/
def applyOp (db : Database) : Op → Database
  | Op.ingest records now => update_data.save_to_database db records now
  | Op.train version n_samples features mae is_synthetic model_path rmse
      r2_score now =>
      ParkingRepository.save_model_metadata db version n_samples features mae
        is_synthetic model_path rmse r2_score now
  | Op.predict location_id city parking_name target_datetime
      predicted_occupied capacity model_version model_mae now =>
      ParkingRepository.insert_prediction db location_id city parking_name
        target_datetime predicted_occupied capacity model_version model_mae
        now
  | Op.reconcile prediction_id actual_occupied =>
      ParkingRepository.update_prediction_actual db prediction_id
        actual_occupied

/-- Run a sequence of core operations from a starting state. -/
def runOps (db : Database) (ops : List Op) : Database :=
  ops.foldl applyOp db

namespace process_parking_data

/-- Per-row occupied computation of process_parking_data.process_data
(line 30): total - free when total is not null; a null free makes the
difference NaN, modelled as none. -/
def row_occupied (total free : Option ℚ) : Option ℚ :=
  match total with
  | none => none
  | some t =>
      match free with
      | some f => some (t - f)
      | none => none

/-- Per-row occupancy_pct computation of process_parking_data.process_data
(line 31): occupied / total * 100 whenever total is not null — the division
is NOT guarded by total > 0.  At total = 0 the Python float division
produces an infinite or NaN value rather than null; the embedding records
that a value is produced (some, with the ℚ division convention) where a
guard would have produced none. -/
def row_occupancy_pct (total free : Option ℚ) : Option ℚ :=
  match total with
  | none => none
  | some t =>
      match row_occupied total free with
      | none => none
      | some o => some (o / t * 100)

end process_parking_data

namespace update_data

/-- Per-row occupancy_pct computation of update_data.process_data
(lines 88-91): guarded by pd.notnull(total) and total > 0. -/
def process_data_occupancy_pct (total free : Option ℚ) : Option ℚ :=
  match total with
  | none => none
  | some t =>
      if 0 < t then
        match free with
        | some f => some ((t - f) / t * 100)
        | none => none
      else none

end update_data

namespace train_model

open ParkingRepository

/-- Module-level minimum record threshold of load_training_data. -/
def MIN_RECORDS : ℕ := 50

/-- Row of the historical or current CSV file after the pd.to_numeric
coercions, with the columns train_model reads. -/
structure HistRow where
  parking_name : String
  capacity : Option ℚ
  free_spaces : Option ℚ
  occupied : Option ℚ
  occupancy_pct : Option ℚ
  status : Option String
  timestamp : DateTime
deriving DecidableEq

/-- Dataset returned by load_training_data, tagged by its source tier. -/
inductive Dataset where
  | fromDB : List TrainRow → Dataset
  | fromHistory : List HistRow → Dataset
  | fromCurrent : List HistRow → Dataset
deriving DecidableEq

/-- CSV validity filter of load_training_data:
occupied notnull and capacity notnull. -/
def validHist (r : HistRow) : Bool :=
  r.occupied.isSome && r.capacity.isSome

/-- Second CSV filter of the historical tier: capacity > 0. -/
def positiveCapacity (r : HistRow) : Bool :=
  match r.capacity with
  | some c => decide (0 < c)
  | none => false

/-- Tiers 2 and 3 of load_training_data: the historical CSV with the
validity and capacity filters if it exists and holds enough rows, else the
current CSV with the validity filter (and is_synthetic = true). -/
def loadFromFiles (historical : Option (List HistRow))
    (current : List HistRow) : Dataset × Bool :=
  match historical with
  | some rows =>
      let df := (rows.filter validHist).filter positiveCapacity
      if MIN_RECORDS ≤ df.length then (Dataset.fromHistory df, false)
      else (Dataset.fromCurrent (current.filter validHist), true)
  | none => (Dataset.fromCurrent (current.filter validHist), true)

/-- train_model.load_training_data: tier 1 queries get_training_data for
CITY when the database is reachable (db = some rows; db = none models
DB_AVAILABLE being false or the caught connection exception) and returns
that dataset when it has at least MIN_RECORDS rows; otherwise the file
tiers are consulted. -/
def load_training_data (db : Option (List ProcessedParkingData))
    (historical : Option (List HistRow)) (current : List HistRow) :
    Dataset × Bool :=
  match db with
  | some rows =>
      let df := get_training_data rows update_data.CITY
      if MIN_RECORDS ≤ df.length then (Dataset.fromDB df, false)
      else loadFromFiles historical current
  | none => loadFromFiles historical current

/-- Piecewise diurnal multiplier of generate_synthetic_data
(train_model.py lines 108-115), with the branches in source order. -/
def hour_factor (hour : ℕ) : ℚ :=
  if (8 ≤ hour ∧ hour ≤ 10) ∨ (17 ≤ hour ∧ hour ≤ 19) then 6/5
  else if 10 < hour ∧ hour < 17 then 1
  else if (6 ≤ hour ∧ hour < 8) ∨ (19 ≤ hour ∧ hour ≤ 22) then 7/10
  else 3/10

/-- Weekday multiplier of generate_synthetic_data (line 118). -/
def day_factor (weekday : ℕ) : ℚ :=
  if 5 ≤ weekday then 3/5 else 1

/-- np.clip(x, lo, hi) = minimum(maximum(x, lo), hi). -/
def clip (x lo hi : ℚ) : ℚ :=
  min (max x lo) hi

/-- Python int() on a float: truncation toward zero. -/
def pyInt (x : ℚ) : ℤ :=
  if 0 ≤ x then ⌊x⌋ else ⌈x⌉

/-- Seed row handed to generate_synthetic_data: at its only call site the
dataframe was filtered to rows whose occupied is not null, so occupied is
carried as a plain ℚ; capacity keeps its nullable type because the
generator re-checks it. -/
structure SeedRow where
  parking_name : String
  capacity : Option ℚ
  occupied : ℚ
deriving DecidableEq

/-- Output row of generate_synthetic_data. -/
structure SynthRow where
  parking_name : String
  hour : ℕ
  weekday : ℕ
  capacity : ℚ
  occupied : ℤ
deriving DecidableEq

/-- One synthetic sample (the inner loop body of generate_synthetic_data):
the drawn hour, weekday and gaussian noise are explicit arguments; the
occupancy rate is clamped to [0.05, 0.95] and occupied =
int(occupancy_rate * capacity). -/
def makeSample (parking_name : String) (base_occupancy capacity : ℚ)
    (draw : ℕ × ℕ × ℚ) : SynthRow :=
  let rate := clip
    (base_occupancy * hour_factor draw.1 * day_factor draw.2.1 + draw.2.2)
    (1/20) (19/20)
  { parking_name := parking_name
    hour := draw.1
    weekday := draw.2.1
    capacity := capacity
    occupied := pyInt (rate * capacity) }

/-- train_model.generate_synthetic_data: rows with a null or non-positive
capacity are skipped; every other row contributes one sample per random
draw, with base_occupancy = occupied / capacity. -/
def generate_synthetic_data (df : List SeedRow)
    (draws : List (ℕ × ℕ × ℚ)) : List SynthRow :=
  match df with
  | [] => []
  | row :: rest =>
      (match row.capacity with
       | none => []
       | some c =>
           if c ≤ 0 then []
           else draws.map (makeSample row.parking_name (row.occupied / c) c))
      ++ generate_synthetic_data rest draws

end train_model

/-- Two successive upserts of the same (city, parking_name), feeding the
autoincrement counter of the first into the second. -/
def upsertTwice (locs : List ParkingLocation) (city name : String)
    (k1 k2 : ParkingRepository.LocationKwargs) (t1 t2 nid : ℕ) :
    List ParkingLocation :=
  (ParkingRepository.upsert_location
    (ParkingRepository.upsert_location locs city name k1 t1 nid).1
    city name k2 t2
    (ParkingRepository.upsert_location locs city name k1 t1 nid).2.2).1

/-- Concrete source record: one Basel location "A" with total 10, free 4,
published at hour 10 of a Wednesday (tick 0). -/
def rec0 : SourceRecord :=
  { name := "A"
    published := ⟨10, 2, 0⟩
    total := some 10
    free := some 4
    status := some "offen"
    address := none
    lot_type := none
    id := none
    link := none
    geo_point_2d := none }

/-- Database holding one prediction: predicted_occupied 30 with capacity
80, inserted into the empty state. -/
def predDb : Database :=
  ParkingRepository.insert_prediction emptyDatabase 0 update_data.CITY "A"
    ⟨10, 2, 0⟩ 30 (some 80) none none 0

/-- The prediction row stored in predDb. -/
def predRow : Prediction :=
  { id := 0
    location_id := 0
    city := update_data.CITY
    parking_name := "A"
    predicted_at := 0
    target_datetime := ⟨10, 2, 0⟩
    predicted_occupied := 30
    predicted_occupancy_pct := some (((30 : ℤ) : ℚ) / ((80 : ℤ) : ℚ) * 100)
    capacity := some 80
    model_version := none
    model_mae := none
    actual_occupied := none
    actual_occupancy_pct := none
    prediction_error := none }

/-- Concrete valid processed row for "Basel": occupied 6, capacity 10. -/
def procRow0 : ProcessedParkingData :=
  { location_id := 0
    city := "Basel"
    parking_name := "A"
    timestamp := ⟨10, 2, 0⟩
    hour := 10
    day_of_week := 2
    is_weekend := false
    capacity := some 10
    free_spaces := some 4
    occupied := some 6
    occupancy_pct := some 60
    status := some "offen"
    is_open := some true
    captured_at := 0 }

/-- Concrete synthetic seed row: capacity 10, last observed occupied 5. -/
def seed0 : train_model.SeedRow :=
  { parking_name := "A"
    capacity := some 10
    occupied := 5 }

/-- Concrete random draw: hour 0, weekday 0, gaussian noise -1/2. -/
def draw0 : ℕ × ℕ × ℚ := (0, 0, -(1/2))

end SmartParking

namespace SmartParking

open ParkingRepository

/-- Deactivating every row leaves no active row. -/
lemma filter_active_deactivateAll (l : List ModelMetadata) :
    (l.map (fun m =>
      if m.is_active then { m with is_active := false } else m)).filter
      (fun m => m.is_active) = [] := by
  induction l with
  | nil => rfl
  | cons m rest ih =>
      by_cases h : m.is_active = true
      · simp [List.filter, h, ih]
      · simp only [Bool.not_eq_true] at h
        simp [List.filter, h, ih]

/-- Claim C2: after every call to save_model_metadata, exactly one
ModelMetadata row has is_active = true, and its version is the one passed
to that (most recent) call: the list of active versions is exactly
[version].  This holds for every prior database state, hence after any
sequence of training runs. -/
theorem C2_single_active_model_version (db : Database) (version : String)
    (n_samples : ℕ) (features : List String) (mae : ℚ) (is_synthetic : Bool)
    (model_path : String) (rmse r2_score : Option ℚ) (now : ℕ) :
    (((save_model_metadata db version n_samples features mae is_synthetic
        model_path rmse r2_score now).model_metadata.filter
        (fun m => m.is_active)).map (fun m => m.version)) = [version] := by
  unfold ParkingRepository.save_model_metadata
  simp [List.filter_append, filter_active_deactivateAll]

/-- Updating a location leaves its (city, parking_name) key unchanged. -/
lemma locKey_applyKwargs (l : ParkingLocation) (k : LocationKwargs)
    (now : ℕ) (c n : String) :
    locKey (applyKwargs l k now) c n = locKey l c n := rfl

/-- A freshly created location matches its own key. -/
lemma locKey_newLocation (nid : ℕ) (c n : String) (k : LocationKwargs)
    (now : ℕ) : locKey (newLocation nid c n k now) c n = true := by
  simp [locKey, newLocation]

/-- Looking a key up after an upsert of that key finds exactly one row: the
updated first match, or the freshly created row. -/
lemma get_location_upsert (locs : List ParkingLocation) (city name : String)
    (k : LocationKwargs) (now nid : ℕ) :
    get_location (upsert_location locs city name k now nid).1 city name =
      some (match get_location locs city name with
            | some l => applyKwargs l k now
            | none => newLocation nid city name k now) := by
  induction locs with
  | nil =>
      simp [upsert_location, get_location, List.find?, locKey_newLocation]
  | cons l rest ih =>
      by_cases h : locKey l city name
      · simp [upsert_location, h, get_location, List.find?, locKey_applyKwargs]
      · simp only [upsert_location, h, if_neg, Bool.false_eq_true,
          not_false_eq_true, get_location, List.find?] at ih ⊢
        simp [h, ih]

/-- Claim C5: location upsert monotonicity.  After two successive upserts
of the same (city, parking_name): a non-null incoming capacity in the
second upsert always wins (the stored capacity is the most recently
ingested non-null value), and a null incoming value for any of the seven
upserted attributes leaves the previously stored value of that attribute
unchanged. -/
theorem C5_location_upsert_monotonic (locs : List ParkingLocation)
    (city name : String) (k1 k2 : LocationKwargs) (t1 t2 nid : ℕ) :
    (∀ a b : ℤ, k1.capacity = some a → k2.capacity = some b →
      (get_location (upsertTwice locs city name k1 k2 t1 t2 nid) city
        name).map (fun l => l.capacity) = some (some b)) ∧
    (k2.capacity = none →
      (get_location (upsertTwice locs city name k1 k2 t1 t2 nid) city
        name).map (fun l => l.capacity) =
      (get_location (upsert_location locs city name k1 t1 nid).1 city
        name).map (fun l => l.capacity)) ∧
    (k2.address = none →
      (get_location (upsertTwice locs city name k1 k2 t1 t2 nid) city
        name).map (fun l => l.address) =
      (get_location (upsert_location locs city name k1 t1 nid).1 city
        name).map (fun l => l.address)) ∧
    (k2.lot_type = none →
      (get_location (upsertTwice locs city name k1 k2 t1 t2 nid) city
        name).map (fun l => l.lot_type) =
      (get_location (upsert_location locs city name k1 t1 nid).1 city
        name).map (fun l => l.lot_type)) ∧
    (k2.latitude = none →
      (get_location (upsertTwice locs city name k1 k2 t1 t2 nid) city
        name).map (fun l => l.latitude) =
      (get_location (upsert_location locs city name k1 t1 nid).1 city
        name).map (fun l => l.latitude)) ∧
    (k2.longitude = none →
      (get_location (upsertTwice locs city name k1 k2 t1 t2 nid) city
        name).map (fun l => l.longitude) =
      (get_location (upsert_location locs city name k1 t1 nid).1 city
        name).map (fun l => l.longitude)) ∧
    (k2.url = none →
      (get_location (upsertTwice locs city name k1 k2 t1 t2 nid) city
        name).map (fun l => l.url) =
      (get_location (upsert_location locs city name k1 t1 nid).1 city
        name).map (fun l => l.url)) ∧
    (k2.external_id = none →
      (get_location (upsertTwice locs city name k1 k2 t1 t2 nid) city
        name).map (fun l => l.external_id) =
      (get_location (upsert_location locs city name k1 t1 nid).1 city
        name).map (fun l => l.external_id)) := by
  have h2 : get_location (upsertTwice locs city name k1 k2 t1 t2 nid) city
      name = some (match get_location (upsert_location locs city name k1 t1
        nid).1 city name with
        | some l => applyKwargs l k2 t2
        | none => newLocation (upsert_location locs city name k1 t1 nid).2.2
            city name k2 t2) := by
    unfold upsertTwice
    exact get_location_upsert _ city name k2 t2 _
  have h1 := get_location_upsert locs city name k1 t1 nid
  rw [h1] at h2
  refine ⟨?_, ?_, ?_, ?_, ?_, ?_, ?_, ?_⟩
  · intro a b ha hb
    rw [h2]
    simp [applyKwargs, mergeField, hb]
  all_goals intro hnone
  all_goals rw [h2, h1]
  all_goals simp [applyKwargs, mergeField, hnone]

/-- Witness for claim C5 at a concrete input: capacity 100 then capacity 80
for the same Basel location ends at capacity 80, and a second upsert with
all-null kwargs preserves the stored capacity. -/
theorem C5_witness :
    ((get_location (upsertTwice [] "Basel" "A"
        ⟨none, none, some 100, none, none, none, none⟩
        ⟨none, none, some 80, none, none, none, none⟩ 0 1 0) "Basel"
        "A").map (fun l => l.capacity) = some (some 80)) ∧
    ((get_location (upsertTwice [] "Basel" "A"
        ⟨none, none, some 100, none, none, none, none⟩
        ⟨none, none, none, none, none, none, none⟩ 0 1 0) "Basel"
        "A").map (fun l => l.capacity) =
      (get_location (upsert_location [] "Basel" "A"
        ⟨none, none, some 100, none, none, none, none⟩ 0 0).1 "Basel"
        "A").map (fun l => l.capacity)) :=
  ⟨(C5_location_upsert_monotonic [] "Basel" "A" _ _ 0 1 0).1 100 80 rfl rfl,
   (C5_location_upsert_monotonic [] "Basel" "A" _ _ 0 1 0).2.1 rfl⟩

/-- Ingesting one record appends exactly one raw row. -/
lemma ingestRecord_raw_length (db : Database) (r : SourceRecord) (now : ℕ) :
    (update_data.ingestRecord db r now).raw_parking_data.length =
      db.raw_parking_data.length + 1 := by
  simp [update_data.ingestRecord, insert_raw_data]

/-- Ingesting one record appends exactly one processed row. -/
lemma ingestRecord_processed_length (db : Database) (r : SourceRecord)
    (now : ℕ) :
    (update_data.ingestRecord db r now).processed_parking_data.length =
      db.processed_parking_data.length + 1 := by
  simp [update_data.ingestRecord, insert_processed_data]

/-- Each ingested batch appends one raw row per record, unconditionally. -/
lemma save_to_database_raw_length (records : List SourceRecord)
    (db : Database) (now : ℕ) :
    (update_data.save_to_database db records now).raw_parking_data.length =
      db.raw_parking_data.length + records.length := by
  induction records generalizing db with
  | nil => simp [update_data.save_to_database]
  | cons r rs ih =>
      have hstep : update_data.save_to_database db (r :: rs) now =
          update_data.save_to_database (update_data.ingestRecord db r now)
            rs now := rfl
      rw [hstep, ih, ingestRecord_raw_length]
      simp [Nat.add_assoc, Nat.add_comm 1 rs.length]

/-- Each ingested batch appends one processed row per record,
unconditionally. -/
lemma save_to_database_processed_length (records : List SourceRecord)
    (db : Database) (now : ℕ) :
    (update_data.save_to_database db records
      now).processed_parking_data.length =
      db.processed_parking_data.length + records.length := by
  induction records generalizing db with
  | nil => simp [update_data.save_to_database]
  | cons r rs ih =>
      have hstep : update_data.save_to_database db (r :: rs) now =
          update_data.save_to_database (update_data.ingestRecord db r now)
            rs now := rfl
      rw [hstep, ih, ingestRecord_processed_length]
      simp [Nat.add_assoc, Nat.add_comm 1 rs.length]

/-- Counterexample to claim C1 as stated: ingesting the one-record Basel
batch [rec0] twice leaves 2 raw and 2 processed rows where one ingestion
leaves 1 of each, and the two raw rows carry the same
(location_id, source_timestamp) key — the second fetch did create a
duplicate RawParkingData row. -/
theorem C1_counterexample :
    (update_data.save_to_database (update_data.save_to_database
      emptyDatabase [rec0] 1) [rec0] 2).raw_parking_data.length = 2 ∧
    (update_data.save_to_database emptyDatabase
      [rec0] 1).raw_parking_data.length = 1 ∧
    (update_data.save_to_database (update_data.save_to_database
      emptyDatabase [rec0] 1) [rec0] 2).processed_parking_data.length = 2 ∧
    (update_data.save_to_database emptyDatabase
      [rec0] 1).processed_parking_data.length = 1 ∧
    ((update_data.save_to_database (update_data.save_to_database
      emptyDatabase [rec0] 1) [rec0] 2).raw_parking_data.all
      (fun r => r.location_id == 0 &&
        r.source_timestamp == (⟨10, 2, 0⟩ : DateTime))) = true ∧
    (2 : ℕ) ≠ 1 := by
  refine ⟨by decide, by decide, by decide, by decide, by decide, by decide⟩

/-- Claim C1 amended: database ingestion is not idempotent — re-ingesting
the same batch appends records.length further raw rows and records.length
further processed rows on top of the first ingestion, for every starting
state and batch. -/
theorem C1_reingest_adds_rows (db : Database) (records : List SourceRecord)
    (now1 now2 : ℕ) :
    (update_data.save_to_database (update_data.save_to_database db records
      now1) records now2).raw_parking_data.length =
      (update_data.save_to_database db records
        now1).raw_parking_data.length + records.length ∧
    (update_data.save_to_database (update_data.save_to_database db records
      now1) records now2).processed_parking_data.length =
      (update_data.save_to_database db records
        now1).processed_parking_data.length + records.length :=
  ⟨save_to_database_raw_length records _ now2,
   save_to_database_processed_length records _ now2⟩

/-- Claim C8: insert_prediction stores predicted_occupancy_pct =
predicted_occupied / capacity * 100 exactly when capacity is present and
positive, and stores null otherwise — no division is performed in the
guarded-out cases. -/
theorem C8_prediction_percentage (db : Database) (lid : ℕ)
    (city name : String) (target : DateTime) (po : ℤ) (c : ℤ)
    (mv : Option String) (mm : Option ℚ) (now : ℕ) :
    (0 < c →
      ((insert_prediction db lid city name target po (some c) mv mm
        now).predictions.getLast?).map (fun p => p.predicted_occupancy_pct)
        = some (some ((po : ℚ) / (c : ℚ) * 100))) ∧
    (c ≤ 0 →
      ((insert_prediction db lid city name target po (some c) mv mm
        now).predictions.getLast?).map (fun p => p.predicted_occupancy_pct)
        = some none) ∧
    (((insert_prediction db lid city name target po none mv mm
        now).predictions.getLast?).map (fun p => p.predicted_occupancy_pct)
        = some none) := by
  refine ⟨fun h => ?_, fun h => ?_, ?_⟩
  · simp [insert_prediction, List.getLast?_concat, if_pos h]
  · simp [insert_prediction, List.getLast?_concat, if_neg (not_lt.mpr h)]
  · simp [insert_prediction, List.getLast?_concat]

/-- Witness for claim C8: predicted_occupied 40 with capacity 80 stores a
predicted occupancy percentage of exactly 50. -/
theorem C8_witness :
    ((insert_prediction emptyDatabase 0 "Basel" "A" ⟨10, 2, 0⟩ 40 (some 80)
      none none 0).predictions.getLast?).map
      (fun p => p.predicted_occupancy_pct) = some (some 50) := by
  have h := (C8_prediction_percentage emptyDatabase 0 "Basel" "A" ⟨10, 2, 0⟩
    40 80 none none 0).1 (by norm_num)
  rw [h]
  norm_num

/-- Reconciling a row does not change its primary key. -/
lemma reconcileRow_id (p : Prediction) (a : ℤ) :
    (reconcileRow p a).id = p.id := rfl

/-- The primary-key lookup after update_prediction_actual finds the
reconciled image of whatever the lookup found before. -/
lemma find_updateFirstPrediction (l : List Prediction) (pid : ℕ) (a : ℤ) :
    (updateFirstPrediction l pid a).find? (fun p => p.id == pid) =
      (l.find? (fun p => p.id == pid)).map (fun p => reconcileRow p a) := by
  induction l with
  | nil => rfl
  | cons p rest ih =>
      by_cases h : (p.id == pid) = true
      · simp [updateFirstPrediction, h, List.find?, reconcileRow_id]
      · simp [updateFirstPrediction, h, List.find?, ih]

/-- Claim C9: reconciliation arithmetic.  For a stored prediction p found
under prediction_id, update_prediction_actual sets actual_occupied to the
supplied value, prediction_error to the absolute difference
abs(predicted_occupied - actual_occupied), and — when the stored capacity
is present and positive — actual_occupancy_pct to
actual_occupied / capacity * 100. -/
theorem C9_reconciliation_arithmetic (db : Database) (pid : ℕ) (a : ℤ)
    (p : Prediction) (h : find_prediction db pid = some p) :
    ((find_prediction (update_prediction_actual db pid a) pid).map
      (fun q => q.actual_occupied) = some (some a)) ∧
    ((find_prediction (update_prediction_actual db pid a) pid).map
      (fun q => q.prediction_error) =
      some (some ((|p.predicted_occupied - a| : ℤ) : ℚ))) ∧
    (∀ c : ℤ, p.capacity = some c → 0 < c →
      (find_prediction (update_prediction_actual db pid a) pid).map
        (fun q => q.actual_occupancy_pct) =
        some (some ((a : ℚ) / (c : ℚ) * 100))) := by
  have hfind : find_prediction (update_prediction_actual db pid a) pid =
      some (reconcileRow p a) := by
    have h2 : db.predictions.find? (fun q => q.id == pid) = some p := h
    show ((updateFirstPrediction db.predictions pid a).find?
      (fun q => q.id == pid)) = some (reconcileRow p a)
    rw [find_updateFirstPrediction, h2]
    rfl
  refine ⟨?_, ?_, ?_⟩
  · rw [hfind]; simp [reconcileRow]
  · rw [hfind]; simp [reconcileRow]
  · intro c hc hpos
    rw [hfind]
    simp [reconcileRow, hc, if_pos hpos]

/-- Witness for claim C9: the stored prediction with predicted_occupied 30
and capacity 80, reconciled with actual_occupied 25, yields
prediction_error 5 and actual_occupancy_pct 125/4 (= 31.25). -/
theorem C9_witness :
    ((find_prediction (update_prediction_actual predDb 0 25) 0).map
      (fun q => q.actual_occupied) = some (some 25)) ∧
    ((find_prediction (update_prediction_actual predDb 0 25) 0).map
      (fun q => q.prediction_error) = some (some 5)) ∧
    ((find_prediction (update_prediction_actual predDb 0 25) 0).map
      (fun q => q.actual_occupancy_pct) = some (some (125/4))) := by
  have h := C9_reconciliation_arithmetic predDb 0 25 predRow rfl
  refine ⟨h.1, ?_, ?_⟩
  · rw [h.2.1]; norm_num [predRow]
  · have hc := h.2.2 80 rfl (by norm_num)
    rw [hc]; norm_num

/-- An upsert never deactivates: if every location is active beforehand, so
is every location afterwards (updates keep is_active, creations default it
to true). -/
lemma upsert_location_all_active (locs : List ParkingLocation)
    (city name : String) (k : LocationKwargs) (now nid : ℕ)
    (h : locs.all (fun l => l.is_active) = true) :
    ((upsert_location locs city name k now nid).1).all
      (fun l => l.is_active) = true := by
  induction locs with
  | nil => simp [upsert_location, newLocation]
  | cons l rest ih =>
      simp only [List.all_cons, Bool.and_eq_true] at h
      by_cases hk : locKey l city name
      · simp only [upsert_location, hk, if_pos]
        simp [List.all_cons, applyKwargs, h.1, h.2]
      · simp only [upsert_location, hk, Bool.false_eq_true, if_neg,
          not_false_eq_true]
        simp [List.all_cons, h.1, ih h.2]

/-- Ingesting one record preserves the all-active invariant. -/
lemma ingestRecord_all_active (db : Database) (r : SourceRecord) (now : ℕ)
    (h : db.locations.all (fun l => l.is_active) = true) :
    ((update_data.ingestRecord db r now).locations).all
      (fun l => l.is_active) = true :=
  upsert_location_all_active db.locations update_data.CITY r.name
    (update_data.recordKwargs r) now db.next_location_id h

/-- Ingesting a batch preserves the all-active invariant. -/
lemma save_to_database_all_active (records : List SourceRecord)
    (db : Database) (now : ℕ)
    (h : db.locations.all (fun l => l.is_active) = true) :
    ((update_data.save_to_database db records now).locations).all
      (fun l => l.is_active) = true := by
  induction records generalizing db with
  | nil => exact h
  | cons r rs ih =>
      exact ih (update_data.ingestRecord db r now)
        (ingestRecord_all_active db r now h)

/-- No core operation deactivates a location. -/
lemma applyOp_all_active (db : Database) (op : Op)
    (h : db.locations.all (fun l => l.is_active) = true) :
    ((applyOp db op).locations).all (fun l => l.is_active) = true := by
  cases op with
  | ingest records now => exact save_to_database_all_active records db now h
  | train version n_samples features mae is_synthetic model_path rmse
      r2_score now => exact h
  | predict location_id city parking_name target_datetime predicted_occupied
      capacity model_version model_mae now => exact h
  | reconcile prediction_id actual_occupied => exact h

/-- Any operation sequence preserves the all-active invariant. -/
lemma runOps_all_active (ops : List Op) (db : Database)
    (h : db.locations.all (fun l => l.is_active) = true) :
    ((runOps db ops).locations).all (fun l => l.is_active) = true := by
  induction ops generalizing db with
  | nil => exact h
  | cons op rest ih => exact ih (applyOp db op) (applyOp_all_active db op h)

/-- Claim C10: starting from the empty state, after any sequence of
ingestion, training, prediction and reconciliation operations every stored
location has is_active = true, and consequently get_all_locations for a
city (which filters on is_active) returns exactly the stored locations of
that city. -/
theorem C10_all_locations_active (ops : List Op) (city : String) :
    ((runOps emptyDatabase ops).locations).all (fun l => l.is_active)
      = true ∧
    get_all_locations (runOps emptyDatabase ops).locations (some city) =
      (runOps emptyDatabase ops).locations.filter
        (fun l => l.city == city) := by
  have hall := runOps_all_active ops emptyDatabase rfl
  refine ⟨hall, ?_⟩
  have hself : (runOps emptyDatabase ops).locations.filter
      (fun l => l.is_active) = (runOps emptyDatabase ops).locations :=
    List.filter_eq_self.mpr (fun a ha => List.all_eq_true.mp hall a ha)
  unfold get_all_locations
  rw [hself]

/-- Claim C3: tier selection determinism.  When the database holds at least
MIN_RECORDS (50) valid rows for CITY — occupied non-null, capacity non-null
and positive — load_training_data returns exactly the database dataset with
is_synthetic = false, for every state of the historical archive and the
current file: the lower tiers are never consulted. -/
theorem C3_tier_selection_determinism (rows : List ProcessedParkingData)
    (historical : Option (List train_model.HistRow))
    (current : List train_model.HistRow)
    (h : train_model.MIN_RECORDS ≤
      (get_training_data rows update_data.CITY).length) :
    train_model.load_training_data (some rows) historical current =
      (train_model.Dataset.fromDB (get_training_data rows update_data.CITY),
        false) := by
  simp only [train_model.load_training_data]
  rw [if_pos h]

/-- Witness for claim C3: a database with 60 valid rows for Basel meets the
threshold and resolves to the database tier with is_synthetic = false,
whatever the file tiers hold. -/
theorem C3_witness :
    train_model.MIN_RECORDS ≤
      (get_training_data (List.replicate 60 procRow0)
        update_data.CITY).length ∧
    train_model.load_training_data (some (List.replicate 60 procRow0))
      none [] =
      (train_model.Dataset.fromDB (get_training_data
        (List.replicate 60 procRow0) update_data.CITY), false) :=
  ⟨by decide, C3_tier_selection_determinism (List.replicate 60 procRow0)
    none [] (by decide)⟩

/-- The clamped occupancy rate is at least 0.05. -/
lemma le_clip_rate (x : ℚ) : 1/20 ≤ train_model.clip x (1/20) (19/20) :=
  le_min (le_max_right x (1/20)) (by norm_num)

/-- The clamped occupancy rate is at most 0.95. -/
lemma clip_rate_le (x : ℚ) : train_model.clip x (1/20) (19/20) ≤ 19/20 :=
  min_le_right _ _

/-- Bounds for one synthetic occupied value: with positive capacity,
int(clip(rate) * capacity) lies in [floor(capacity/20), 19/20 * capacity]
and is non-negative. -/
lemma pyInt_clip_bounds (x c : ℚ) (hc : 0 < c) :
    0 ≤ train_model.pyInt (train_model.clip x (1/20) (19/20) * c) ∧
    ((train_model.pyInt (train_model.clip x (1/20) (19/20) * c) : ℚ) ≤
      19/20 * c) ∧
    (⌊(1/20 : ℚ) * c⌋ ≤
      train_model.pyInt (train_model.clip x (1/20) (19/20) * c)) := by
  have h1 : (1:ℚ)/20 ≤ train_model.clip x (1/20) (19/20) := le_clip_rate x
  have h2 : train_model.clip x (1/20) (19/20) ≤ 19/20 := clip_rate_le x
  have hy : (0:ℚ) ≤ train_model.clip x (1/20) (19/20) * c :=
    mul_nonneg (le_trans (by norm_num) h1) hc.le
  have hpy : train_model.pyInt (train_model.clip x (1/20) (19/20) * c) =
      ⌊train_model.clip x (1/20) (19/20) * c⌋ := by
    unfold train_model.pyInt
    rw [if_pos hy]
  refine ⟨?_, ?_, ?_⟩
  · rw [hpy]
    exact Int.le_floor.mpr (by exact_mod_cast hy)
  · rw [hpy]
    calc ((⌊train_model.clip x (1/20) (19/20) * c⌋ : ℚ)) ≤
        train_model.clip x (1/20) (19/20) * c := Int.floor_le _
      _ ≤ 19/20 * c := mul_le_mul_of_nonneg_right h2 hc.le
  · rw [hpy]
    exact Int.floor_le_floor (mul_le_mul_of_nonneg_right h1 hc.le)

/-- Claim C4 amended: every generated synthetic sample has positive
capacity, occupied ≥ 0, occupied ≤ 0.95 × capacity, and occupied ≥
floor(0.05 × capacity) — the floor weakens the lower bound whenever
0.05 × capacity is not an integer. -/
theorem C4_synthetic_clamp_bounds (df : List train_model.SeedRow)
    (draws : List (ℕ × ℕ × ℚ)) (s : train_model.SynthRow)
    (hs : s ∈ train_model.generate_synthetic_data df draws) :
    0 < s.capacity ∧ 0 ≤ s.occupied ∧
    ((s.occupied : ℚ) ≤ 19/20 * s.capacity) ∧
    (⌊(1/20 : ℚ) * s.capacity⌋ ≤ s.occupied) := by
  induction df with
  | nil => simp [train_model.generate_synthetic_data] at hs
  | cons row rest ih =>
      simp only [train_model.generate_synthetic_data] at hs
      cases hcap : row.capacity with
      | none =>
          rw [hcap] at hs
          simp only [List.nil_append] at hs
          exact ih hs
      | some c =>
          rw [hcap] at hs
          dsimp only at hs
          by_cases hle : c ≤ 0
          · rw [if_pos hle] at hs
            simp only [List.nil_append] at hs
            exact ih hs
          · rw [if_neg hle] at hs
            rcases List.mem_append.mp hs with hmem | hmem
            · rcases List.mem_map.mp hmem with ⟨draw, _, hdraw⟩
              have hc : 0 < c := lt_of_not_ge hle
              subst hdraw
              have hb := pyInt_clip_bounds
                (row.occupied / c * train_model.hour_factor draw.1 *
                  train_model.day_factor draw.2.1 + draw.2.2) c hc
              exact ⟨hc, hb.1, hb.2.1, hb.2.2⟩
            · exact ih hmem

/-- Generating from the single seed row (capacity 10, occupied 5) yields
one sample per draw with base occupancy 5/10. -/
lemma generate_seed0 (draws : List (ℕ × ℕ × ℚ)) :
    train_model.generate_synthetic_data [seed0] draws =
      draws.map (train_model.makeSample "A" ((5:ℚ)/10) 10) := by
  simp only [train_model.generate_synthetic_data, seed0]
  rw [if_neg (by norm_num : ¬ (10:ℚ) ≤ 0)]
  simp

/-- The overnight diurnal multiplier at hour 0. -/
lemma hour_factor_zero : train_model.hour_factor 0 = 3/10 := by
  simp [train_model.hour_factor]

/-- The weekday multiplier on a weekday. -/
lemma day_factor_zero : train_model.day_factor 0 = 1 := by
  simp [train_model.day_factor]

/-- The synthetic occupied value for seed capacity 10 at hour 0, weekday 0,
noise -1/2: the rate clamps to the floor 0.05 and int(0.05 * 10) = 0. -/
lemma seed0_draw0_occupied :
    train_model.pyInt (train_model.clip ((5:ℚ)/10 *
      train_model.hour_factor 0 * train_model.day_factor 0 + -(1/2)) (1/20)
      (19/20) * 10) = 0 := by
  rw [hour_factor_zero, day_factor_zero]
  have hx : (5:ℚ)/10 * (3/10) * 1 + -(1/2) = -(7/20) := by norm_num
  rw [hx]
  have hclip : train_model.clip (-(7/20) : ℚ) (1/20) (19/20) = 1/20 := by
    unfold train_model.clip
    rw [max_eq_right (by norm_num : (-(7/20) : ℚ) ≤ 1/20)]
    exact min_eq_left (by norm_num)
  rw [hclip]
  have h12 : (1/20 : ℚ) * 10 = 1/2 := by norm_num
  rw [h12]
  unfold train_model.pyInt
  rw [if_pos (by norm_num : (0:ℚ) ≤ 1/2)]
  rw [Int.floor_eq_iff]
  constructor
  · norm_num
  · norm_num

/-- Counterexample to claim C4 as stated: the seed row with capacity 10 and
occupied 5, drawn at hour 0, weekday 0 with noise -1/2, generates the
sample (hour 0, weekday 0, capacity 10, occupied 0), and
0.05 × 10 = 1/2 ≤ 0 is false: the produced occupied value lies strictly
below 0.05 × capacity. -/
theorem C4_counterexample :
    train_model.generate_synthetic_data [seed0] [draw0] =
      [{ parking_name := "A", hour := 0, weekday := 0, capacity := 10,
         occupied := 0 }] ∧
    ¬ ((1/20 : ℚ) * 10 ≤ ((0 : ℤ) : ℚ)) := by
  constructor
  · rw [generate_seed0]
    simp only [List.map_cons, List.map_nil]
    congr 1
    simp only [train_model.makeSample, draw0]
    rw [seed0_draw0_occupied]
  · norm_num

/-- Witness for the amended claim C4 at a concrete input: the sample drawn
at hour 12, weekday 0, noise 0 from the seed row with capacity 10 satisfies
all the amended bounds. -/
theorem C4_witness :
    0 < (train_model.makeSample "A" ((5:ℚ)/10) 10 (12, 0, 0)).capacity ∧
    0 ≤ (train_model.makeSample "A" ((5:ℚ)/10) 10 (12, 0, 0)).occupied ∧
    (((train_model.makeSample "A" ((5:ℚ)/10) 10 (12, 0, 0)).occupied : ℚ) ≤
      19/20 * (train_model.makeSample "A" ((5:ℚ)/10) 10
        (12, 0, 0)).capacity) ∧
    (⌊(1/20 : ℚ) * (train_model.makeSample "A" ((5:ℚ)/10) 10
        (12, 0, 0)).capacity⌋ ≤
      (train_model.makeSample "A" ((5:ℚ)/10) 10 (12, 0, 0)).occupied) := by
  have hmem : train_model.makeSample "A" ((5:ℚ)/10) 10 (12, 0, 0) ∈
      train_model.generate_synthetic_data [seed0] [(12, 0, 0)] := by
    rw [generate_seed0]
    simp
  exact C4_synthetic_clamp_bounds [seed0] [(12, 0, 0)] _ hmem

/-- Counterexample to claim C6 as stated: at the drawn hour 19 the code
takes the peak branch (17 ≤ 19 ≤ 19) and applies 1.2, not the 0.7 the
claim assigns to the range 19-22: the claim is contradictory at hour 19. -/
theorem C6_counterexample :
    train_model.hour_factor 19 = 6/5 ∧ ((6:ℚ)/5 ≠ 7/10) := by
  constructor
  · unfold train_model.hour_factor
    rw [if_pos (Or.inr (by norm_num))]
  · norm_num

/-- Claim C6 amended: for every drawn hour (0-23) the diurnal multiplier is
1.2 on 8-10 and 17-19, 1.0 on 11-16, 0.7 on 6-7 and 20-22 (hour 19 belongs
to the 17-19 peak), and 0.3 otherwise (overnight 23-5); the weekday
multiplier is 0.6 for weekday ≥ 5 and 1.0 otherwise. -/
theorem C6_diurnal_weekday_multipliers :
    (∀ h : ℕ, ((8 ≤ h ∧ h ≤ 10) ∨ (17 ≤ h ∧ h ≤ 19)) →
      train_model.hour_factor h = 6/5) ∧
    (∀ h : ℕ, 11 ≤ h → h ≤ 16 → train_model.hour_factor h = 1) ∧
    (∀ h : ℕ, ((6 ≤ h ∧ h ≤ 7) ∨ (20 ≤ h ∧ h ≤ 22)) →
      train_model.hour_factor h = 7/10) ∧
    (∀ h : ℕ, h < 24 → ¬((8 ≤ h ∧ h ≤ 10) ∨ (17 ≤ h ∧ h ≤ 19)) →
      ¬(11 ≤ h ∧ h ≤ 16) → ¬((6 ≤ h ∧ h ≤ 7) ∨ (20 ≤ h ∧ h ≤ 22)) →
      train_model.hour_factor h = 3/10) ∧
    (∀ w : ℕ, 5 ≤ w → train_model.day_factor w = 3/5) ∧
    (∀ w : ℕ, w < 5 → train_model.day_factor w = 1) := by
  refine ⟨?_, ?_, ?_, ?_, ?_, ?_⟩
  · intro h hcond
    unfold train_model.hour_factor
    rw [if_pos hcond]
  · intro h h1 h2
    unfold train_model.hour_factor
    rw [if_neg (by omega), if_pos (by omega)]
  · intro h hcond
    unfold train_model.hour_factor
    rw [if_neg (by omega), if_neg (by omega), if_pos (by omega)]
  · intro h hlt h1 h2 h3
    unfold train_model.hour_factor
    rw [if_neg (by omega), if_neg (by omega), if_neg (by omega)]
  · intro w hw
    unfold train_model.day_factor
    rw [if_pos hw]
  · intro w hw
    unfold train_model.day_factor
    rw [if_neg (by omega)]

/-- Witness for the amended claim C6 at concrete inputs: hour 8 is a peak
(1.2) and weekday 6 is a weekend (0.6). -/
theorem C6_witness :
    train_model.hour_factor 8 = 6/5 ∧ train_model.day_factor 6 = 3/5 :=
  ⟨C6_diurnal_weekday_multipliers.1 8 (Or.inl (by norm_num)),
   C6_diurnal_weekday_multipliers.2.2.2.2.1 6 (by norm_num)⟩

/-- Claim C7, evaluated at the failing input (a record with total = 0 and
free = 5): process_parking_data.process_data divides by the non-positive
total and stores a value (in Python an infinite float), where the claim
and the guarded computation of update_data.process_data — shown alongside
— leave the percentage undefined. -/
theorem C7_unguarded_occupancy_division :
    (process_parking_data.row_occupancy_pct (some 0) (some 5)).isSome
      = true ∧
    update_data.process_data_occupancy_pct (some 0) (some 5) = none := by
  constructor
  · rfl
  · show (if (0:ℚ) < 0 then (match (some (5:ℚ)) with
      | some f => some (((0:ℚ) - f) / 0 * 100)
      | none => none) else none) = none
    rw [if_neg (lt_irrefl (0:ℚ))]

end SmartParking
